import Mathlib

/-!
Verification of the SmileRise smile-extraction pipeline.

This file gives a shallow embedding, in Lean 4, of the core smile-detection
and video-scanning logic of the SmileRise repository:

* the geometric smile scorer `analyzeSmileGeometry` and its helpers
  (`calculateDistance`, `calculateMouthCurvature`, `calculateEyeCrinkle`,
  `calculateSmileSymmetry`), translated from `FaceDetectionService`;
* the hybrid combiner `calculateCombinedConfidence`;
* the per-frame smile filter `isSmiling` and `detectFaces`;
* the scanning loop `VideoProcessor.processVideo`, including its smile-burst
  buffering, cooldown, per-sample seek handling, progress-stats emission,
  final-burst flush, and final confidence sort.

Modelling conventions:

* JavaScript numbers are modelled by `JSN` (finite rationals plus `nan`,
  `inf`, `ninf`) wherever a division by zero is reachable, so that the
  source's IEEE behaviour (`x / 0 = Infinity`, `0 / 0 = NaN`, comparisons
  with `NaN` being false, `Math.min`/`Math.max` propagating `NaN`) is kept.
  Where no division by zero is reachable, plain rationals `Rat` are used.
  Floating-point rounding is abstracted away: arithmetic is exact.
* `Math.sqrt` is modelled as an explicit parameter `sqrtQ : Rat → Rat`;
  concrete evaluations instantiate it with the exact kernel-computable
  `ratSqrt` below, and are arranged so that every square root taken is a
  perfect square, where `ratSqrt` agrees with the real square root.
* The asynchronous environment (seek results, the wall-clock cooldown timer,
  the face detector's output, external stop requests) is modelled as an
  input trace supplying one record per sampled instant.
-/

/-! ## A model of JavaScript numbers

`JSN` is a rational together with the three IEEE special values that the
SmileRise geometry code can actually produce: `NaN`, `Infinity` and
`-Infinity` (all from divisions whose denominator is a zero distance).
Signed zero is not distinguished; the source never branches on it.
-/

inductive JSN where
  | nan : JSN
  | inf : JSN
  | ninf : JSN
  | fin : ℚ → JSN
deriving DecidableEq, Repr

namespace JSN

/-- JavaScript addition. `Infinity + (-Infinity) = NaN`. -/
def add : JSN → JSN → JSN
  | nan, _ => nan
  | _, nan => nan
  | inf, ninf => nan
  | ninf, inf => nan
  | inf, _ => inf
  | _, inf => inf
  | ninf, _ => ninf
  | _, ninf => ninf
  | fin a, fin b => fin (a + b)

/-- JavaScript subtraction. `Infinity - Infinity = NaN`. -/
def sub : JSN → JSN → JSN
  | nan, _ => nan
  | _, nan => nan
  | inf, inf => nan
  | ninf, ninf => nan
  | inf, _ => inf
  | _, inf => ninf
  | ninf, _ => ninf
  | _, ninf => inf
  | fin a, fin b => fin (a - b)

/-- JavaScript multiplication. `Infinity * 0 = NaN`. -/
def mul : JSN → JSN → JSN
  | nan, _ => nan
  | _, nan => nan
  | inf, inf => inf
  | inf, ninf => ninf
  | ninf, inf => ninf
  | ninf, ninf => inf
  | inf, fin b => if b = 0 then nan else if 0 < b then inf else ninf
  | fin a, inf => if a = 0 then nan else if 0 < a then inf else ninf
  | ninf, fin b => if b = 0 then nan else if 0 < b then ninf else inf
  | fin a, ninf => if a = 0 then nan else if 0 < a then ninf else inf
  | fin a, fin b => fin (a * b)

/-- JavaScript division. `x / 0` is `Infinity`, `-Infinity` or `NaN`
depending on the sign of `x`; `x / Infinity = 0`; `Infinity / Infinity = NaN`.
The positive-zero denominator convention is used (signed zero is not
modelled). -/
def div : JSN → JSN → JSN
  | nan, _ => nan
  | _, nan => nan
  | inf, inf => nan
  | inf, ninf => nan
  | ninf, inf => nan
  | ninf, ninf => nan
  | inf, fin b => if 0 ≤ b then inf else ninf
  | ninf, fin b => if 0 ≤ b then ninf else inf
  | fin _, inf => fin 0
  | fin _, ninf => fin 0
  | fin a, fin b =>
      if b = 0 then (if a = 0 then nan else if 0 < a then inf else ninf)
      else fin (a / b)

/-- JavaScript strict greater-than as a boolean: any comparison with `NaN`
is false. -/
def gtb : JSN → JSN → Bool
  | nan, _ => false
  | _, nan => false
  | inf, inf => false
  | inf, _ => true
  | _, inf => false
  | ninf, _ => false
  | fin _, ninf => true
  | fin a, fin b => decide (b < a)

/-- JavaScript `Math.min`: returns `NaN` if either argument is `NaN`. -/
def min : JSN → JSN → JSN
  | nan, _ => nan
  | _, nan => nan
  | inf, y => y
  | x, inf => x
  | ninf, _ => ninf
  | _, ninf => ninf
  | fin a, fin b => fin (Min.min a b)

/-- JavaScript `Math.max`: returns `NaN` if either argument is `NaN`. -/
def max : JSN → JSN → JSN
  | nan, _ => nan
  | _, nan => nan
  | ninf, y => y
  | x, ninf => x
  | inf, _ => inf
  | _, inf => inf
  | fin a, fin b => fin (Max.max a b)

end JSN

/-! ## Data model shared by the detector and the video processor -/

/-- A 2D landmark point, `faceapi.Point`. -/
structure Point where
  x : ℚ
  y : ℚ
deriving DecidableEq, Repr

/-- A 68-point landmark set (`faceapi.FaceLandmarks68`), as the indexed
family of its `positions`; indices 0–67 are meaningful. `getMouth()` is
the slice starting at index 48. -/
def Landmarks : Type := ℕ → Point

/-- The expression-probability vector. Only the `happy` channel is ever
read by the SmileRise code, so only it is modelled. -/
structure Expressions where
  happy : ℚ
deriving DecidableEq, Repr

/-- One raw face detection as delivered by the capability provider
(face-api). The bounding box is not modelled: the pipeline stores
`detection.detection.box` of an already-flattened record, which is
`undefined` at runtime, and no claim reads it. -/
structure RawDetection where
  expressions : Expressions
  landmarks : Landmarks

/-- A retained result. This one structure serves both for the records built
by `detectFaces` (`ExtractedFace`) and those built by `processVideo`
(`ExtractedFrame`): in the source both carry the same fields (the unread
bounding box dropped, see `RawDetection`). The id, in the source
`Date.now().toString() + Math.random()...`, is modelled as an opaque
constant: no code path reads it. -/
structure ExtractedFrame where
  expressions : Expressions
  landmarks : Landmarks
  timestamp : ℚ
  confidence : ℚ
  id : ℕ

/-! ## Geometric smile scorer

Translated from `FaceDetectionService.analyzeSmileGeometry` and its helpers
(the coherent revision of the service, `src/unnamed/part_003`, lines
123–233; the copy under `src/src/utils/faceDetection.ts` has an eye-crinkle
helper that references an out-of-scope variable and cannot run).
`Math.sqrt` is the parameter `sqrtQ`.
-/

/-- Euclidean distance between two landmark points,
`FaceDetectionService.calculateDistance`. -/
def calculateDistance (sqrtQ : ℚ → ℚ) (point1 point2 : Point) : ℚ :=
  let dx := point1.x - point2.x
  let dy := point1.y - point2.y
  sqrtQ (dx * dx + dy * dy)

/-- Mouth-curvature feature, `FaceDetectionService.calculateMouthCurvature`:
`max(0, min(1, curvature * 10 + 0.5))` where `curvature` is the vertical
offset of the lip-centre midpoint below the corner average, divided by the
corner distance. A zero corner distance makes the division produce
`NaN`/`±Infinity` exactly as in JavaScript. -/
def calculateMouthCurvature (sqrtQ : ℚ → ℚ)
    (leftCorner rightCorner topLip bottomLip : Point) : JSN :=
  let mouthCenterY : ℚ := (topLip.y + bottomLip.y) / 2
  let avgCornerY : ℚ := (leftCorner.y + rightCorner.y) / 2
  let curvature : JSN :=
    JSN.div (JSN.fin (mouthCenterY - avgCornerY))
      (JSN.fin (calculateDistance sqrtQ leftCorner rightCorner))
  JSN.max (JSN.fin 0)
    (JSN.min (JSN.fin 1) (JSN.add (JSN.mul curvature (JSN.fin 10)) (JSN.fin (1/2))))

/-- Eye-crinkle feature, `FaceDetectionService.calculateEyeCrinkle`:
the eye-corner-to-eyebrow distance normalised by the constant 50 and
inverted, clamped to `[0,1]`. The denominator is a constant, so the value
is always finite. -/
def calculateEyeCrinkle (sqrtQ : ℚ → ℚ) (eyeCorner eyebrow : Point) : ℚ :=
  let distance := calculateDistance sqrtQ eyeCorner eyebrow
  let normalizedDistance := distance / 50
  Max.max 0 (Min.min 1 (1 - normalizedDistance))

/-- Smile-symmetry feature, `FaceDetectionService.calculateSmileSymmetry`:
the ratio of the smaller to the larger corner-to-nose-tip distance. This
revision has no zero guard: two zero distances give `0 / 0 = NaN`. -/
def calculateSmileSymmetry (sqrtQ : ℚ → ℚ)
    (leftCorner rightCorner noseTip : Point) : JSN :=
  let leftDistance := calculateDistance sqrtQ leftCorner noseTip
  let rightDistance := calculateDistance sqrtQ rightCorner noseTip
  JSN.div (JSN.fin (Min.min leftDistance rightDistance))
    (JSN.fin (Max.max leftDistance rightDistance))

/-- The derived feature record returned alongside the geometric
confidence. -/
structure GeometricFeatures where
  mouthWidthRatio : JSN
  mouthCurvature : JSN
  avgEyeCrinkle : JSN
  mouthOpennessRatio : JSN
  symmetryScore : JSN
deriving DecidableEq, Repr

/-- Result of the geometric scorer: a confidence plus the feature values. -/
structure GeometricAnalysis where
  confidence : ℚ
  features : GeometricFeatures
deriving DecidableEq, Repr

/-- Mouth-width band of the geometric score: the source's
`if (mouthWidthRatio > 0.25) geometricScore += 0.3; else if ...` chain,
written as the value contributed. -/
def mouthWidthBand (r : JSN) : ℚ :=
  if r.gtb (JSN.fin (1/4)) then 3/10
  else if r.gtb (JSN.fin (1/5)) then 1/4
  else if r.gtb (JSN.fin (3/20)) then 3/20
  else 0

/-- Mouth-curvature band of the geometric score. -/
def mouthCurvatureBand (c : JSN) : ℚ :=
  if c.gtb (JSN.fin (7/10)) then 1/4
  else if c.gtb (JSN.fin (1/2)) then 3/20
  else if c.gtb (JSN.fin (3/10)) then 1/10
  else 0

/-- Eye-crinkle band of the geometric score. -/
def eyeCrinkleBand (e : JSN) : ℚ :=
  if e.gtb (JSN.fin (3/5)) then 1/4
  else if e.gtb (JSN.fin (2/5)) then 3/20
  else if e.gtb (JSN.fin (1/5)) then 1/10
  else 0

/-- Symmetry band of the geometric score. -/
def symmetryBand (s : JSN) : ℚ :=
  if s.gtb (JSN.fin (4/5)) then 1/5
  else if s.gtb (JSN.fin (3/5)) then 3/20
  else if s.gtb (JSN.fin (2/5)) then 1/10
  else 0

/-- The geometric smile scorer, `FaceDetectionService.analyzeSmileGeometry`.
Landmark indices, feature definitions and threshold bands follow the source
line by line; the accumulating `geometricScore += ...` chains are the four
band functions summed, and the returned confidence is
`Math.min(1.0, geometricScore)`. -/
def analyzeSmileGeometry (sqrtQ : ℚ → ℚ) (landmarks : Landmarks) :
    GeometricAnalysis :=
  let points := landmarks
  let leftMouthCorner := points 48
  let rightMouthCorner := points 54
  let topLip := points 51
  let bottomLip := points 57
  let leftEyeOuter := points 36
  let rightEyeOuter := points 45
  let leftEyebrowInner := points 21
  let rightEyebrowInner := points 22
  let noseTip := points 33
  let mouthWidth : ℚ := |rightMouthCorner.x - leftMouthCorner.x|
  let faceWidth : ℚ := calculateDistance sqrtQ leftEyeOuter rightEyeOuter
  let mouthWidthRatio : JSN := JSN.div (JSN.fin mouthWidth) (JSN.fin faceWidth)
  let mouthCurvature : JSN :=
    calculateMouthCurvature sqrtQ leftMouthCorner rightMouthCorner topLip bottomLip
  let leftEyeCrinkle : ℚ := calculateEyeCrinkle sqrtQ leftEyeOuter leftEyebrowInner
  let rightEyeCrinkle : ℚ := calculateEyeCrinkle sqrtQ rightEyeOuter rightEyebrowInner
  let avgEyeCrinkle : ℚ := (leftEyeCrinkle + rightEyeCrinkle) / 2
  let mouthOpenness : ℚ := calculateDistance sqrtQ topLip bottomLip
  let mouthOpennessRatio : JSN := JSN.div (JSN.fin mouthOpenness) (JSN.fin mouthWidth)
  let symmetryScore : JSN :=
    calculateSmileSymmetry sqrtQ leftMouthCorner rightMouthCorner noseTip
  let features : GeometricFeatures :=
    { mouthWidthRatio := mouthWidthRatio
      mouthCurvature := mouthCurvature
      avgEyeCrinkle := JSN.fin avgEyeCrinkle
      mouthOpennessRatio := mouthOpennessRatio
      symmetryScore := symmetryScore }
  let geometricScore : ℚ :=
    mouthWidthBand mouthWidthRatio + mouthCurvatureBand mouthCurvature
      + eyeCrinkleBand (JSN.fin avgEyeCrinkle) + symmetryBand symmetryScore
  { confidence := Min.min 1 geometricScore
    features := features }

/-! ## Hybrid confidence combiner

Translated from `FaceDetectionService.calculateCombinedConfidence` in
`src/src/utils/faceDetection.ts`, lines 340–372 (the final revision of the
combiner, with its three-way `isGenuine` disjunction).
-/

/-- Result of the combiner: final confidence and genuineness verdict. -/
structure CombinedConfidence where
  confidence : ℚ
  isGenuine : Bool
deriving DecidableEq, Repr

/-- The hybrid combiner, `FaceDetectionService.calculateCombinedConfidence`:
a 40/60 blend of the learned happy score and the geometric confidence, plus
additive bonuses for strong features, clamped by `Math.min(1.0, ...)`; the
`isGenuine` verdict is the source's disjunction of a baseline triple gate,
a strong-happy-with-crinkle branch, and a wide-open-mouth branch. -/
def calculateCombinedConfidence (happyScore : ℚ)
    (geometricAnalysis : GeometricAnalysis) : CombinedConfidence :=
  let mlWeight : ℚ := 2/5
  let geometricWeight : ℚ := 3/5
  let combinedScore : ℚ :=
    happyScore * mlWeight + geometricAnalysis.confidence * geometricWeight
  let f := geometricAnalysis.features
  let bonus : ℚ :=
    (if f.avgEyeCrinkle.gtb (JSN.fin (3/5)) then 3/20 else 0)
      + (if f.mouthWidthRatio.gtb (JSN.fin (7/20)) then 1/20 else 0)
      + (if f.mouthOpennessRatio.gtb (JSN.fin (2/5))
            ∧ f.mouthWidthRatio.gtb (JSN.fin (3/10)) then 1/10
         else if f.mouthOpennessRatio.gtb (JSN.fin (1/4))
            ∧ f.mouthWidthRatio.gtb (JSN.fin (1/4)) then 1/20
         else 0)
  let finalConfidence : ℚ := Min.min 1 (combinedScore + bonus)
  let isGenuine : Bool :=
    (decide (1/2 < finalConfidence) && decide (3/10 < geometricAnalysis.confidence)
        && decide (1/5 < happyScore))
      || (decide (7/10 < happyScore) && f.avgEyeCrinkle.gtb (JSN.fin (2/5)))
      || (f.mouthWidthRatio.gtb (JSN.fin (2/5))
        && f.mouthOpennessRatio.gtb (JSN.fin (1/2)) && decide (3/10 < happyScore))
  { confidence := finalConfidence
    isGenuine := isGenuine }

/-! ## Per-frame smile filter and `detectFaces`

Translated from the final revision of the detection service used by the
video processor (`src/unnamed/part_004`, second copy, lines 177–249):
`isSmiling` gates on the learned happy score and a mouth aspect-ratio test;
`detectFaces` keeps the smiling detections, stamping them with the video
time and the raw happy score as confidence.
-/

/-- The smile filter, `FaceDetectionService.isSmiling`: happy score at
least 0.5, mouth height at least the 0.5 minimum, and mouth aspect ratio
strictly between 2 and 6. The division is guarded by the dimension check,
so plain rational arithmetic is faithful here. -/
def isSmiling (sqrtQ : ℚ → ℚ) (expressions : Expressions)
    (landmarks : Landmarks) : Bool :=
  let happyScoreThreshold : ℚ := 1/2
  let minSmileAspectRatio : ℚ := 2
  let maxSmileAspectRatio : ℚ := 6
  let minMouthHeight : ℚ := 1/2
  let happyScore := expressions.happy
  if happyScore < happyScoreThreshold then false
  else
    let mouth := fun i => landmarks (48 + i)
    let leftMouthCorner := mouth 0
    let rightMouthCorner := mouth 6
    let upperLipCenter := mouth 3
    let lowerLipCenter := mouth 9
    let mouthWidth : ℚ :=
      sqrtQ ((rightMouthCorner.x - leftMouthCorner.x)
          * (rightMouthCorner.x - leftMouthCorner.x)
        + (rightMouthCorner.y - leftMouthCorner.y)
          * (rightMouthCorner.y - leftMouthCorner.y))
    let mouthHeight : ℚ := lowerLipCenter.y - upperLipCenter.y
    if mouthWidth ≤ 0 ∨ mouthHeight < minMouthHeight then false
    else
      let aspectRatio := mouthWidth / mouthHeight
      decide (minSmileAspectRatio < aspectRatio)
        && decide (aspectRatio < maxSmileAspectRatio)

/-- The detector adapter, `FaceDetectionService.detectFaces`: filters the
provider's detections through `isSmiling` and flattens them into result
records carrying the video timestamp and `expressions.happy || 0` as
confidence. -/
def detectFaces (sqrtQ : ℚ → ℚ) (videoTime : ℚ)
    (detections : List RawDetection) : List ExtractedFrame :=
  detections.filterMap fun detection =>
    if isSmiling sqrtQ detection.expressions detection.landmarks then
      some { expressions := detection.expressions
             landmarks := detection.landmarks
             timestamp := videoTime
             confidence := detection.expressions.happy
             id := 0 }
    else none

/-! ## Video processor

Translated from `VideoProcessor.processVideo` in
`src/src/utils/videoProcessor.ts`, lines 14–250 (the first, current copy of
the class: buffer 500 ms, minimum burst 100 ms, sample step 250 ms; the
2000 ms cooldown is a wall-clock timer, see `SampleInput.cooldownExpires`).

The asynchronous environment is an input trace with one `SampleInput` per
sampled instant:

* `seek` is the outcome of the bounded per-sample seek wait (the `seeked`
  event, the 1-second timeout, or the `error` event, which rejects the
  promise);
* `stopDuringSeek` models `stopProcessing()` being called while the seek
  was awaited (the flag is re-checked right after the wait);
* `videoTime` is the value of `video.currentTime` observed after the wait
  (on a timeout it may differ from the requested instant);
* `detect` is the outcome of the `detectFaces` provider call: the raw
  detection list, or an exception (which propagates);
* `cooldownExpires` models the wall-clock `SMILE_COOLDOWN_DURATION_MS`
  timer firing at one of the suspension points before this sample's smile
  logic runs.
-/

/-- Outcome of one bounded seek wait. -/
inductive SeekOutcome where
  | seeked : SeekOutcome
  | timedOut : SeekOutcome
  | seekError : SeekOutcome
deriving DecidableEq, Repr

/-- The environment's contribution to one sampled instant. -/
structure SampleInput where
  seek : SeekOutcome
  stopDuringSeek : Bool
  videoTime : ℚ
  detect : Except Unit (List RawDetection)
  cooldownExpires : Bool

/-- Progress counters reported through the stats callback. -/
structure ProcessingStats where
  totalFrames : ℕ
  processedFrames : ℕ
  smilingFaces : ℕ
  isProcessing : Bool
deriving DecidableEq, Repr

/-- Processing options; `processVideo` receives but never reads them. -/
structure ProcessingOptions where
  extractAll : Bool
  maxExtract : ℕ
deriving DecidableEq, Repr

/-- The errors `processVideo` can raise: the two explicit `throw` sites,
the metadata-load rejection, and the two rejections that propagate out of
awaited promises (a seek `error` event, a detector exception). -/
inductive PVError where
  | elementsMissing : PVError
  | metadataLoadFailed : PVError
  | noContext : PVError
  | seekFailed : PVError
  | detectionFailed : PVError
deriving DecidableEq, Repr

/-- The in-progress smile burst (`this.currentSmileBurst`). Its `bestFrame`
is nullable in the source but assigned at every creation site, so it is
modelled as always present. Times are in milliseconds. -/
structure SmileBurst where
  bestFrame : ExtractedFrame
  maxConfidence : ℚ
  startTime : ℚ
  lastDetectionTime : ℚ

/-- The `VideoProcessor` instance fields as they stand when `processVideo`
is entered. Lines 49 and 95–99 of the source overwrite every one of them
before any is read, which is why the embedding never consults this
record. -/
structure ProcState where
  stopProcessingFlag : Bool
  smileCooldownActive : Bool
  burstPending : Bool

/-- A `ProcState` of an idle processor. -/
def idleProc : ProcState :=
  { stopProcessingFlag := false, smileCooldownActive := false, burstPending := false }

/-- A `ProcState` mid-run: a burst is buffered and the stop flag clear. -/
def activeProc : ProcState :=
  { stopProcessingFlag := false, smileCooldownActive := true, burstPending := true }

/-- The mutable state of one run of the scanning loop. -/
structure RunState where
  currentSmileBurst : Option SmileBurst
  smileCooldownActive : Bool
  stopProcessingFlag : Bool
  extractedFrames : List ExtractedFrame
  processedFrames : ℕ
  smilingFacesCount : ℕ
  lastStats : ProcessingStats
  statsLog : List ProcessingStats
  lastVideoTime : ℚ

/-- One `setProcessingStats(prev => ...)` call: applies the functional
update to the last published stats value and records the emission. -/
def emitStats (f : ProcessingStats → ProcessingStats) (s : RunState) : RunState :=
  let st := f s.lastStats
  { s with lastStats := st, statsLog := s.statsLog ++ [st] }

/-- The inner `for (const detection of detections)` loop of one sample.
Outside the cooldown, the loop breaks at the first smiling detection and
starts or extends the burst with it; during the cooldown every smiling
detection is skipped by `continue`, so the whole list is scanned and the
burst is untouched. Returns the `smileDetectedInFrame` flag and the updated
state. -/
def smileScan (sqrtQ : ℚ → ℚ) (detections : List ExtractedFrame)
    (videoTime currentTimestampMs : ℚ) (s : RunState) : Bool × RunState :=
  if s.smileCooldownActive then
    (detections.any fun d => isSmiling sqrtQ d.expressions d.landmarks, s)
  else
    match detections.find? fun d => isSmiling sqrtQ d.expressions d.landmarks with
    | none => (false, s)
    | some d =>
      let currentFrameConfidence := d.expressions.happy
      let candidate : ExtractedFrame :=
        { expressions := d.expressions
          landmarks := d.landmarks
          timestamp := videoTime
          confidence := currentFrameConfidence
          id := 0 }
      match s.currentSmileBurst with
      | none =>
        let newBurst : SmileBurst :=
          { bestFrame := candidate
            maxConfidence := currentFrameConfidence
            startTime := currentTimestampMs
            lastDetectionTime := currentTimestampMs }
        (true, { s with currentSmileBurst := some newBurst })
      | some b =>
        let b :=
          if b.maxConfidence < currentFrameConfidence then
            { b with bestFrame := candidate, maxConfidence := currentFrameConfidence }
          else b
        let b := { b with lastDetectionTime := currentTimestampMs }
        (true, { s with currentSmileBurst := some b })

/-- The burst-finalisation block at the end of one sample: a burst ends
when the smile has been absent longer than the 500 ms buffer, or has
lasted longer than the buffer. A finalised burst of at least the 100 ms
minimum duration contributes its best frame to the results and bumps the
smiling-faces counter; either way the cooldown starts and the burst
resets. -/
def burstFinalize (currentTimestampMs : ℚ) (smileDetectedInFrame : Bool)
    (s : RunState) : RunState :=
  match s.currentSmileBurst with
  | none => s
  | some b =>
    let burstDuration := currentTimestampMs - b.startTime
    let timeSinceLastDetection := currentTimestampMs - b.lastDetectionTime
    if (!smileDetectedInFrame && decide (500 < timeSinceLastDetection))
        || (smileDetectedInFrame && decide (500 < burstDuration)) then
      let s :=
        if 100 ≤ burstDuration then
          let s := { s with
            extractedFrames := s.extractedFrames ++ [b.bestFrame]
            smilingFacesCount := s.smilingFacesCount + 1 }
          emitStats (fun p => { p with smilingFaces := s.smilingFacesCount }) s
        else s
      { s with smileCooldownActive := true, currentSmileBurst := none }
    else s

/-- One iteration of the scanning loop (the body of the `while`): the seek
wait (an `error` event rejects and aborts; a timeout proceeds), the
re-check of the stop flag, the progress emission, the detector call (an
exception aborts), the smile scan and the burst finalisation. The
cooldown timer, being wall-clock, may fire at any of the suspension points
preceding the smile scan; `cooldownExpires` covers them all. -/
def stepSample (sqrtQ : ℚ → ℚ) (inp : SampleInput) (s : RunState) :
    Except PVError RunState :=
  if inp.seek = SeekOutcome.seekError then Except.error PVError.seekFailed
  else
    let s := { s with lastVideoTime := inp.videoTime }
    let s :=
      if s.smileCooldownActive && inp.cooldownExpires then
        { s with smileCooldownActive := false }
      else s
    if inp.stopDuringSeek then Except.ok { s with stopProcessingFlag := true }
    else
      let s := { s with processedFrames := s.processedFrames + 1 }
      let s := emitStats (fun p => { p with processedFrames := s.processedFrames }) s
      match inp.detect with
      | Except.error _ => Except.error PVError.detectionFailed
      | Except.ok raws =>
        let detections := detectFaces sqrtQ inp.videoTime raws
        let currentTimestampMs := inp.videoTime * 1000
        let scan := smileScan sqrtQ detections inp.videoTime currentTimestampMs s
        Except.ok (burstFinalize currentTimestampMs scan.1 scan.2)

/-- The scanning loop: `while (currentTime < video.duration &&
!this.stopProcessingFlag)`, with `currentTime = k * 0.25` after `k`
iterations (0.25 is a binary fraction, so the source's float accumulation
is exact and the rational grid is faithful). The fuel `n` starts at
`sampleBudget d` and runs out exactly when the loop condition first fails,
so it never truncates the loop. -/
def runFrom (sqrtQ : ℚ → ℚ) (d : ℚ) (trace : ℕ → SampleInput) :
    ℕ → ℕ → RunState → Except PVError RunState
  | 0, _, s => Except.ok s
  | n + 1, k, s =>
    if decide ((k : ℚ) / 4 < d) && !s.stopProcessingFlag then
      match stepSample sqrtQ (trace k) s with
      | Except.error e => Except.error e
      | Except.ok s1 => runFrom sqrtQ d trace n (k + 1) s1
    else Except.ok s

/-- The iteration count of an unstopped run: the least `k` with
`k * 0.25 ≥ duration`. -/
def sampleBudget (d : ℚ) : ℕ := (Rat.ceil (d * 4)).toNat

/-- The initial stats published before the loop:
`Math.floor(video.duration * 1000 / PROCESSING_FRAME_STEP_MS)` expected
samples, nothing processed, processing active. -/
def initialStats (d : ℚ) : ProcessingStats :=
  { totalFrames := (Rat.floor (d * 1000 / 250)).toNat
    processedFrames := 0
    smilingFaces := 0
    isProcessing := true }

/-- The loop state as reset by the prelude (lines 49 and 90–107 of the
source): no burst, no cooldown, stop flag cleared, empty results, zeroed
counters, and the initial stats just published. -/
def initialRunState (d : ℚ) : RunState :=
  { currentSmileBurst := none
    smileCooldownActive := false
    stopProcessingFlag := false
    extractedFrames := []
    processedFrames := 0
    smilingFacesCount := 0
    lastStats := initialStats d
    statsLog := [initialStats d]
    lastVideoTime := 0 }

/-- The run's inputs: the element/load/context preconditions of the prelude
and the per-sample environment trace. -/
structure RunInput where
  elementsPresent : Bool
  loadOk : Bool
  contextOk : Bool
  duration : ℚ
  trace : ℕ → SampleInput

/-- Insertion of a frame into a confidence-descending list; together with
`sortFramesDesc` this models the stable
`extractedFrames.sort((a, b) => b.confidence - a.confidence)`. -/
def insertFrameDesc (x : ExtractedFrame) : List ExtractedFrame → List ExtractedFrame
  | [] => [x]
  | y :: ys =>
    if y.confidence ≤ x.confidence then x :: y :: ys
    else y :: insertFrameDesc x ys

/-- Sorting by descending confidence. -/
def sortFramesDesc : List ExtractedFrame → List ExtractedFrame
  | [] => []
  | x :: xs => insertFrameDesc x (sortFramesDesc xs)

/-- The final-burst flush after the loop (source lines 233–241): a still
pending burst is kept if the last detection is within the buffer window of
the final video time, the burst meets the minimum duration, and no
cooldown is active. -/
def flushFinalBurst (s : RunState) : RunState :=
  match s.currentSmileBurst with
  | none => s
  | some b =>
    if s.lastVideoTime * 1000 - b.lastDetectionTime ≤ 500
        ∧ 100 ≤ s.lastVideoTime * 1000 - b.startTime
        ∧ s.smileCooldownActive = false then
      let s := { s with
        extractedFrames := s.extractedFrames ++ [b.bestFrame]
        smilingFacesCount := s.smilingFacesCount + 1 }
      emitStats (fun p => { p with smilingFaces := s.smilingFacesCount }) s
    else s

/-- The whole of `VideoProcessor.processVideo`: the prelude's guards, the
state reset (which is why `pre` is received but never read — the source
overwrites `stopProcessingFlag`, `currentSmileBurst` and
`smileCooldownActive` before reading them), the initial stats emission, the
scanning loop, the final-burst flush, the `isProcessing := false` emission,
and the final confidence sort. The `options` argument is likewise received
but never read by the source. Returns the sorted frames and the sequence of
published stats. -/
def processVideo (sqrtQ : ℚ → ℚ) (pre : ProcState) (options : ProcessingOptions)
    (input : RunInput) : Except PVError (List ExtractedFrame × List ProcessingStats) :=
  if !input.elementsPresent then Except.error PVError.elementsMissing
  else if !input.loadOk then Except.error PVError.metadataLoadFailed
  else if !input.contextOk then Except.error PVError.noContext
  else
    match runFrom sqrtQ input.duration input.trace (sampleBudget input.duration) 0
        (initialRunState input.duration) with
    | Except.error e => Except.error e
    | Except.ok s =>
      let s := flushFinalBurst s
      let s := emitStats (fun p => { p with isProcessing := false }) s
      Except.ok (sortFramesDesc s.extractedFrames, s.statsLog)

/-- The frames of a run result; an aborted run returns none. -/
def framesOf (r : Except PVError (List ExtractedFrame × List ProcessingStats)) :
    List ExtractedFrame :=
  match r with
  | Except.ok (fs, _) => fs
  | Except.error _ => []

/-- The published stats of a run result. -/
def logOf (r : Except PVError (List ExtractedFrame × List ProcessingStats)) :
    List ProcessingStats :=
  match r with
  | Except.ok (_, log) => log
  | Except.error _ => []

/-- Whether an `Except` is a success. -/
def exceptOk {ε α : Type} : Except ε α → Bool
  | Except.ok _ => true
  | Except.error _ => false

/-! ## Concrete inputs for evaluation

A landmark set that passes `isSmiling` (mouth corners 30 apart, lip centres
10 apart: aspect ratio 3, and 900 is a perfect square so `Rat.sqrt` is the
exact square root), a degenerate landmark set with every point at the
origin, and environment traces built from them.
-/

/-- Fuel-based integer square root (largest `r ≤ fuel` with `r * r ≤ n`),
written with structural recursion so the kernel can evaluate it. -/
def natSqrtAux : ℕ → ℕ → ℕ
  | 0, _ => 0
  | r + 1, n => if (r + 1) * (r + 1) ≤ n then r + 1 else natSqrtAux r n

/-- Kernel-computable integer square root: exact on perfect squares. -/
def natSqrt (n : ℕ) : ℕ := natSqrtAux n n

/-- The concrete instantiation of the `Math.sqrt` parameter: exact whenever
numerator and denominator are perfect squares, which holds for every square
root taken in the concrete evaluations below. -/
def ratSqrt (q : ℚ) : ℚ := (natSqrt q.num.toNat : ℚ) / (natSqrt q.den : ℚ)

/-- A smiling landmark set: every square root taken on it is exact. -/
def smilePts : Landmarks := fun n =>
  if n = 54 then { x := 30, y := 0 }
  else if n = 51 then { x := 15, y := 0 }
  else if n = 57 then { x := 15, y := 10 }
  else { x := 0, y := 0 }

/-- The all-coincident (fully degenerate) landmark set. -/
def zeroPts : Landmarks := fun _ => { x := 0, y := 0 }

/-- A raw detection of a smiling face with the given happy probability. -/
def smileDet (h : ℚ) : RawDetection :=
  { expressions := { happy := h }, landmarks := smilePts }

/-- A normally-seeked sample at time `t` with the given detections; the
cooldown timer fires before it iff `cool`. -/
def mkSample (t : ℚ) (dets : List RawDetection) (cool : Bool) : SampleInput :=
  { seek := SeekOutcome.seeked
    stopDuringSeek := false
    videoTime := t
    detect := Except.ok dets
    cooldownExpires := cool }

/-- The padding sample used past the end of a finite trace. -/
def defaultSample : SampleInput := mkSample 0 [] false

/-- A 4-second run with four smile bursts (each of four 250 ms samples);
the cooldown timer fires during the first suspension after each burst.
Burst best confidences 9/10, 4/5, 7/10, 3/5; the first burst's best frame
is its last sample (timestamp 0.75 s), the others their first. -/
def fourSmileTraceList : List SampleInput :=
  [ mkSample 0 [smileDet (1/2)] false
  , mkSample (1/4) [smileDet (1/2)] false
  , mkSample (2/4) [smileDet (1/2)] false
  , mkSample (3/4) [smileDet (9/10)] false
  , mkSample 1 [smileDet (4/5)] true
  , mkSample (5/4) [smileDet (4/5)] false
  , mkSample (6/4) [smileDet (4/5)] false
  , mkSample (7/4) [smileDet (4/5)] false
  , mkSample 2 [smileDet (7/10)] true
  , mkSample (9/4) [smileDet (7/10)] false
  , mkSample (10/4) [smileDet (7/10)] false
  , mkSample (11/4) [smileDet (7/10)] false
  , mkSample 3 [smileDet (3/5)] true
  , mkSample (13/4) [smileDet (3/5)] false
  , mkSample (14/4) [smileDet (3/5)] false
  , mkSample (15/4) [smileDet (3/5)] false ]

/-- The four-burst run input. -/
def fourSmileInput : RunInput :=
  { elementsPresent := true
    loadOk := true
    contextOk := true
    duration := 4
    trace := fun k => fourSmileTraceList.getD k defaultSample }

/-- A run whose first sample's seek fires the `error` event. -/
def seekErrInput : RunInput :=
  { elementsPresent := true
    loadOk := true
    contextOk := true
    duration := 1
    trace := fun _ =>
      { seek := SeekOutcome.seekError
        stopDuringSeek := false
        videoTime := 0
        detect := Except.ok []
        cooldownExpires := false } }

/-- A run whose first sample's detector call throws. -/
def detectErrInput : RunInput :=
  { elementsPresent := true
    loadOk := true
    contextOk := true
    duration := 1
    trace := fun _ =>
      { seek := SeekOutcome.seeked
        stopDuringSeek := false
        videoTime := 0
        detect := Except.error ()
        cooldownExpires := false } }

/-- A 1-second run whose first sample's seek times out (and a smile is
still found at the third sample, showing processing continued). -/
def timeoutInput : RunInput :=
  { elementsPresent := true
    loadOk := true
    contextOk := true
    duration := 1
    trace := fun k =>
      if k = 0 then
        { seek := SeekOutcome.timedOut
          stopDuringSeek := false
          videoTime := 0
          detect := Except.ok []
          cooldownExpires := false }
      else (List.getD
        [ mkSample (1/4) [smileDet (3/5)] false
        , mkSample (2/4) [smileDet (3/5)] false
        , mkSample (3/4) [] false ] (k - 1) defaultSample) }

/-- A minimal quarter-second run with no faces. -/
def smallInput : RunInput :=
  { elementsPresent := true
    loadOk := true
    contextOk := true
    duration := 1/4
    trace := fun _ => defaultSample }

/-- Options requesting at most two frames. -/
def optsTwo : ProcessingOptions := { extractAll := false, maxExtract := 2 }

/-- Options requesting at most five frames. -/
def optsFive : ProcessingOptions := { extractAll := false, maxExtract := 5 }

/-! ## Sorting lemmas -/

/-- Membership in an insertion. -/
theorem mem_insertFrameDesc {x z : ExtractedFrame} :
    ∀ {l : List ExtractedFrame}, z ∈ insertFrameDesc x l → z = x ∨ z ∈ l := by
  intro l
  induction l with
  | nil => intro h; simpa [insertFrameDesc] using h
  | cons y ys ih =>
    intro h
    simp only [insertFrameDesc] at h
    split at h
    · rcases List.mem_cons.mp h with h | h
      · exact Or.inl h
      · exact Or.inr h
    · rcases List.mem_cons.mp h with h | h
      · exact Or.inr (h ▸ List.mem_cons_self y ys)
      · rcases ih h with h | h
        · exact Or.inl h
        · exact Or.inr (List.mem_cons_of_mem y h)

/-- Inserting into a confidence-descending list keeps it descending. -/
theorem pairwise_insertFrameDesc {x : ExtractedFrame} :
    ∀ {l : List ExtractedFrame},
      l.Pairwise (fun a b => b.confidence ≤ a.confidence) →
      (insertFrameDesc x l).Pairwise (fun a b => b.confidence ≤ a.confidence) := by
  intro l
  induction l with
  | nil => intro _; simp [insertFrameDesc]
  | cons y ys ih =>
    intro h
    rcases List.pairwise_cons.mp h with ⟨hy, hys⟩
    by_cases hc : y.confidence ≤ x.confidence
    · simp only [insertFrameDesc, if_pos hc]
      refine List.pairwise_cons.mpr ⟨?_, h⟩
      intro z hz
      rcases List.mem_cons.mp hz with rfl | hz
      · exact hc
      · exact le_trans (hy z hz) hc
    · simp only [insertFrameDesc, if_neg hc]
      refine List.pairwise_cons.mpr ⟨?_, ih hys⟩
      intro z hz
      rcases mem_insertFrameDesc hz with rfl | hz
      · exact le_of_not_le hc
      · exact hy z hz

/-- The output of `sortFramesDesc` is descending in confidence. -/
theorem pairwise_sortFramesDesc (l : List ExtractedFrame) :
    (sortFramesDesc l).Pairwise (fun a b => b.confidence ≤ a.confidence) := by
  induction l with
  | nil => simp [sortFramesDesc]
  | cons x xs ih => exact pairwise_insertFrameDesc ih

/-- `List.all` survives an insertion. -/
theorem all_insertFrameDesc {p : ExtractedFrame → Bool} {x : ExtractedFrame}
    (hx : p x = true) :
    ∀ {l : List ExtractedFrame}, l.all p = true → (insertFrameDesc x l).all p = true := by
  intro l
  induction l with
  | nil => intro _; simp [insertFrameDesc, hx]
  | cons y ys ih =>
    intro hl
    simp only [List.all_cons, Bool.and_eq_true] at hl
    simp only [insertFrameDesc]
    split
    · simp only [List.all_cons, Bool.and_eq_true]
      exact ⟨hx, hl.1, hl.2⟩
    · simp only [List.all_cons, Bool.and_eq_true]
      exact ⟨hl.1, ih hl.2⟩

/-- `List.all` survives sorting. -/
theorem all_sortFramesDesc {p : ExtractedFrame → Bool} :
    ∀ {l : List ExtractedFrame}, l.all p = true → (sortFramesDesc l).all p = true := by
  intro l
  induction l with
  | nil => intro _; simp [sortFramesDesc]
  | cons x xs ih =>
    intro hl
    simp only [List.all_cons, Bool.and_eq_true] at hl
    exact all_insertFrameDesc hl.1 (ih hl.2)

/-! ## Bounds on the geometric scorer -/

/-- The mouth-width band contributes between 0 and 0.3. -/
theorem mouthWidthBand_bounds (r : JSN) :
    0 ≤ mouthWidthBand r ∧ mouthWidthBand r ≤ 3/10 := by
  unfold mouthWidthBand
  split_ifs <;> norm_num

/-- The curvature band contributes between 0 and 0.25. -/
theorem mouthCurvatureBand_bounds (c : JSN) :
    0 ≤ mouthCurvatureBand c ∧ mouthCurvatureBand c ≤ 1/4 := by
  unfold mouthCurvatureBand
  split_ifs <;> norm_num

/-- The eye-crinkle band contributes between 0 and 0.25. -/
theorem eyeCrinkleBand_bounds (e : JSN) :
    0 ≤ eyeCrinkleBand e ∧ eyeCrinkleBand e ≤ 1/4 := by
  unfold eyeCrinkleBand
  split_ifs <;> norm_num

/-- The symmetry band contributes between 0 and 0.2. -/
theorem symmetryBand_bounds (s : JSN) :
    0 ≤ symmetryBand s ∧ symmetryBand s ≤ 1/5 := by
  unfold symmetryBand
  split_ifs <;> norm_num

/-- The summed geometric score is nonnegative. -/
theorem geoBandSum_nonneg (r c e s : JSN) :
    0 ≤ mouthWidthBand r + mouthCurvatureBand c + eyeCrinkleBand e + symmetryBand s := by
  have h1 := (mouthWidthBand_bounds r).1
  have h2 := (mouthCurvatureBand_bounds c).1
  have h3 := (eyeCrinkleBand_bounds e).1
  have h4 := (symmetryBand_bounds s).1
  linarith

/-- The geometric confidence always lies in `[0, 1]`. -/
theorem analyzeSmileGeometry_confidence_bounds (sqrtQ : ℚ → ℚ)
    (landmarks : Landmarks) :
    0 ≤ (analyzeSmileGeometry sqrtQ landmarks).confidence ∧
      (analyzeSmileGeometry sqrtQ landmarks).confidence ≤ 1 := by
  unfold analyzeSmileGeometry
  dsimp only
  exact ⟨le_min (by norm_num) (geoBandSum_nonneg _ _ _ _), min_le_left _ _⟩

/-! ## Bounds on the combiner -/

/-- With both inputs in `[0, 1]`, the combined confidence is in `[0, 1]`:
the blend and the bonus terms are nonnegative, and the result is clamped
above by `Math.min(1.0, ...)`. -/
theorem calculateCombinedConfidence_bounds (happyScore : ℚ) (g : GeometricAnalysis)
    (h0 : 0 ≤ happyScore) (h1 : happyScore ≤ 1)
    (g0 : 0 ≤ g.confidence) (g1 : g.confidence ≤ 1) :
    0 ≤ (calculateCombinedConfidence happyScore g).confidence ∧
      (calculateCombinedConfidence happyScore g).confidence ≤ 1 := by
  unfold calculateCombinedConfidence
  dsimp only
  constructor
  · apply le_min (by norm_num)
    split_ifs <;> linarith
  · exact min_le_left _ _

/-! ## Invariant machinery for the scanning loop -/

/-- An invariant preserved by every successful step is preserved by the
whole loop. -/
theorem runFrom_inv (sqrtQ : ℚ → ℚ) (d : ℚ) (trace : ℕ → SampleInput)
    (P : RunState → Prop)
    (hstep : ∀ inp s s1, P s → stepSample sqrtQ inp s = Except.ok s1 → P s1) :
    ∀ (n k : ℕ) (s s1 : RunState), P s →
      runFrom sqrtQ d trace n k s = Except.ok s1 → P s1 := by
  intro n
  induction n with
  | zero =>
    intro k s s1 hP h
    simp only [runFrom] at h
    injection h with h2
    exact h2 ▸ hP
  | succ n ih =>
    intro k s s1 hP h
    simp only [runFrom] at h
    split at h
    · cases hs : stepSample sqrtQ (trace k) s with
      | error e => rw [hs] at h; simp at h
      | ok s2 =>
        rw [hs] at h
        exact ih (k + 1) s2 s1 (hstep _ _ _ hP hs) h
    · injection h with h2
      exact h2 ▸ hP

/-- `smileScan` changes only the buffered burst: every other field of the
state is untouched. -/
theorem smileScan_fields (sqrtQ : ℚ → ℚ) (dets : List ExtractedFrame)
    (vt ct : ℚ) (s : RunState) :
    (smileScan sqrtQ dets vt ct s).2.statsLog = s.statsLog ∧
      (smileScan sqrtQ dets vt ct s).2.lastStats = s.lastStats ∧
      (smileScan sqrtQ dets vt ct s).2.processedFrames = s.processedFrames ∧
      (smileScan sqrtQ dets vt ct s).2.smilingFacesCount = s.smilingFacesCount ∧
      (smileScan sqrtQ dets vt ct s).2.extractedFrames = s.extractedFrames := by
  unfold smileScan
  repeat' split
  all_goals simp

/-! ## The stats invariant (claim C10) -/

/-- The relation between two consecutively published stats records:
`processedFrames` advances by zero or one, `smilingFaces` never decreases,
`totalFrames` never changes. -/
def statsStep (s t : ProcessingStats) : Prop :=
  (t.processedFrames = s.processedFrames ∨ t.processedFrames = s.processedFrames + 1)
    ∧ s.smilingFaces ≤ t.smilingFaces ∧ t.totalFrames = s.totalFrames

/-- The stats invariant maintained by the loop: the log starts with the
zeroed `isProcessing := true` record, ends with the last published value,
is a `statsStep` chain, and the last published value mirrors the state's
counters. -/
def StatsInv (s : RunState) : Prop :=
  (∃ h0 t0, s.statsLog = h0 :: t0 ∧ h0.processedFrames = 0 ∧ h0.isProcessing = true)
    ∧ s.statsLog.getLast? = some s.lastStats
    ∧ List.Chain' statsStep s.statsLog
    ∧ s.lastStats.processedFrames = s.processedFrames
    ∧ s.lastStats.smilingFaces = s.smilingFacesCount

/-- Changing fields outside the stats invariant preserves it. -/
theorem statsInv_untouched {s s2 : RunState}
    (hlog : s2.statsLog = s.statsLog) (hlast : s2.lastStats = s.lastStats)
    (hpf : s2.processedFrames = s.processedFrames)
    (hsm : s2.smilingFacesCount = s.smilingFacesCount)
    (hI : StatsInv s) : StatsInv s2 := by
  obtain ⟨hh, hl, hc, h4, h5⟩ := hI
  refine ⟨hlog ▸ hh, ?_, hlog ▸ hc, ?_, ?_⟩
  · rw [hlog, hlast]; exact hl
  · rw [hlast, hpf]; exact h4
  · rw [hlast, hsm]; exact h5

/-- Publishing one more record related by `statsStep` preserves the
head/last/chain part of the invariant. -/
theorem emitStats_log (f : ProcessingStats → ProcessingStats) (s : RunState)
    (hh : ∃ h0 t0, s.statsLog = h0 :: t0 ∧ h0.processedFrames = 0 ∧ h0.isProcessing = true)
    (hl : s.statsLog.getLast? = some s.lastStats)
    (hc : List.Chain' statsStep s.statsLog)
    (hstep : statsStep s.lastStats (f s.lastStats)) :
    (∃ h0 t0, (emitStats f s).statsLog = h0 :: t0 ∧ h0.processedFrames = 0
        ∧ h0.isProcessing = true)
      ∧ (emitStats f s).statsLog.getLast? = some (emitStats f s).lastStats
      ∧ List.Chain' statsStep (emitStats f s).statsLog := by
  obtain ⟨h0, t0, hlog, hp0, hip⟩ := hh
  unfold emitStats
  dsimp only
  refine ⟨⟨h0, t0 ++ [f s.lastStats], by rw [hlog]; simp, hp0, hip⟩, ?_, ?_⟩
  · simp
  · rw [List.chain'_append]
    refine ⟨hc, List.chain'_singleton _, ?_⟩
    intro x hx y hy
    simp only [List.head?_cons, Option.mem_def, Option.some.injEq] at hy
    rw [hl] at hx
    simp only [Option.mem_def, Option.some.injEq] at hx
    subst hx
    subst hy
    exact hstep

/-- The progress emission of one sample preserves the stats invariant. -/
theorem statsInv_processed_emit {s : RunState} (hI : StatsInv s) :
    StatsInv (emitStats (fun p => { p with processedFrames := s.processedFrames + 1 })
      { s with processedFrames := s.processedFrames + 1 }) := by
  obtain ⟨hh, hl, hc, h4, h5⟩ := hI
  have hstep : statsStep s.lastStats
      { s.lastStats with processedFrames := s.processedFrames + 1 } := by
    refine ⟨Or.inr ?_, le_refl _, rfl⟩
    simp [h4]
  obtain ⟨ph, pl, pc⟩ := emitStats_log
    (fun p => { p with processedFrames := s.processedFrames + 1 })
    { s with processedFrames := s.processedFrames + 1 } hh hl hc hstep
  refine ⟨ph, pl, pc, ?_, ?_⟩
  · simp [emitStats]
  · simp [emitStats, h5]

/-- The smiling-faces emission after a burst extraction preserves the
stats invariant. -/
theorem statsInv_smiling_emit {s : RunState} {fr : ExtractedFrame} (hI : StatsInv s) :
    StatsInv (emitStats (fun p => { p with smilingFaces := s.smilingFacesCount + 1 })
      { s with extractedFrames := s.extractedFrames ++ [fr],
               smilingFacesCount := s.smilingFacesCount + 1 }) := by
  obtain ⟨hh, hl, hc, h4, h5⟩ := hI
  have hstep : statsStep s.lastStats
      { s.lastStats with smilingFaces := s.smilingFacesCount + 1 } := by
    refine ⟨Or.inl rfl, ?_, rfl⟩
    simp [h5]
  obtain ⟨ph, pl, pc⟩ := emitStats_log
    (fun p => { p with smilingFaces := s.smilingFacesCount + 1 })
    { s with extractedFrames := s.extractedFrames ++ [fr],
             smilingFacesCount := s.smilingFacesCount + 1 } hh hl hc hstep
  refine ⟨ph, pl, pc, ?_, ?_⟩
  · simp [emitStats, h4]
  · simp [emitStats]

/-- The closing `isProcessing := false` emission preserves the stats
invariant and makes the last published record inactive. -/
theorem statsInv_final_emit {s : RunState} (hI : StatsInv s) :
    StatsInv (emitStats (fun p => { p with isProcessing := false }) s)
      ∧ (emitStats (fun p => { p with isProcessing := false }) s).lastStats.isProcessing
        = false := by
  obtain ⟨hh, hl, hc, h4, h5⟩ := hI
  have hstep : statsStep s.lastStats { s.lastStats with isProcessing := false } :=
    ⟨Or.inl rfl, le_refl _, rfl⟩
  obtain ⟨ph, pl, pc⟩ := emitStats_log
    (fun p => { p with isProcessing := false }) s hh hl hc hstep
  refine ⟨⟨ph, pl, pc, ?_, ?_⟩, ?_⟩
  · simp [emitStats, h4]
  · simp [emitStats, h5]
  · simp [emitStats]

/-- The burst-finalisation block preserves the stats invariant. -/
theorem burstFinalize_statsInv (ct : ℚ) (sm : Bool) (s : RunState)
    (hI : StatsInv s) : StatsInv (burstFinalize ct sm s) := by
  unfold burstFinalize
  split
  · exact hI
  · rename_i b hb
    dsimp only
    split
    · split
      · refine statsInv_untouched ?_ ?_ ?_ ?_ (@statsInv_smiling_emit s b.bestFrame hI)
        all_goals simp [emitStats]
      · exact statsInv_untouched rfl rfl rfl rfl hI
    · exact hI

/-- The final-burst flush preserves the stats invariant. -/
theorem flushFinalBurst_statsInv (s : RunState) (hI : StatsInv s) :
    StatsInv (flushFinalBurst s) := by
  unfold flushFinalBurst
  split
  · exact hI
  · split
    · exact statsInv_smiling_emit hI
    · exact hI

/-- One successful loop step preserves the stats invariant. -/
theorem stepSample_statsInv (sqrtQ : ℚ → ℚ) (inp : SampleInput) (s s1 : RunState)
    (hI : StatsInv s) (h : stepSample sqrtQ inp s = Except.ok s1) : StatsInv s1 := by
  unfold stepSample at h
  split at h
  · simp at h
  · split at h
    · injection h with h2
      subst h2
      refine statsInv_untouched ?_ ?_ ?_ ?_ hI <;> (split <;> simp)
    · split at h
      · simp at h
      · injection h with h2
        subst h2
        apply burstFinalize_statsInv
        refine statsInv_untouched (smileScan_fields _ _ _ _ _).1
          (smileScan_fields _ _ _ _ _).2.1 (smileScan_fields _ _ _ _ _).2.2.1
          (smileScan_fields _ _ _ _ _).2.2.2.1 ?_
        apply statsInv_processed_emit
        refine statsInv_untouched ?_ ?_ ?_ ?_ hI <;> (split <;> simp)

/-- The stats invariant holds at the freshly reset state. -/
theorem statsInv_initial (d : ℚ) : StatsInv (initialRunState d) := by
  refine ⟨⟨initialStats d, [], rfl, rfl, rfl⟩, rfl, ?_, rfl, rfl⟩
  simp [initialRunState]

/-! ## The raw-happy-confidence invariant (claim C9) -/

/-- A frame whose stored confidence is exactly its raw happy probability. -/
def confEqHappy (f : ExtractedFrame) : Bool :=
  decide (f.confidence = f.expressions.happy)

/-- The loop invariant for claim C9: every accumulated frame, and the
buffered burst's best frame, stores the raw happy probability as its
confidence. -/
def BurstInv (s : RunState) : Prop :=
  s.extractedFrames.all confEqHappy = true
    ∧ ∀ b, s.currentSmileBurst = some b → confEqHappy b.bestFrame = true

/-- Changing fields outside the burst invariant preserves it. -/
theorem burstInv_untouched {s s2 : RunState}
    (hex : s2.extractedFrames = s.extractedFrames)
    (hb : s2.currentSmileBurst = s.currentSmileBurst)
    (hI : BurstInv s) : BurstInv s2 := by
  refine ⟨hex ▸ hI.1, ?_⟩
  intro b hbb
  exact hI.2 b (hb ▸ hbb)

/-- The smile scan preserves the burst invariant: any frame it buffers is
built with `confidence := d.expressions.happy`. -/
theorem smileScan_burstInv (sqrtQ : ℚ → ℚ) (dets : List ExtractedFrame)
    (vt ct : ℚ) (s : RunState) (hI : BurstInv s) :
    BurstInv (smileScan sqrtQ dets vt ct s).2 := by
  unfold smileScan
  split
  · exact hI
  · split
    · exact hI
    · dsimp only
      split
      · refine ⟨hI.1, ?_⟩
        intro b hb
        simp only [Option.some.injEq] at hb
        rw [← hb]
        simp [confEqHappy]
      · rename_i b0 hb0
        refine ⟨hI.1, ?_⟩
        intro b hb
        simp only [Option.some.injEq] at hb
        rw [← hb]
        split
        · simp [confEqHappy]
        · exact hI.2 b0 hb0

/-- The burst-finalisation block preserves the burst invariant. -/
theorem burstFinalize_burstInv (ct : ℚ) (sm : Bool) (s : RunState)
    (hI : BurstInv s) : BurstInv (burstFinalize ct sm s) := by
  unfold burstFinalize
  split
  · exact hI
  · rename_i b hb
    dsimp only
    split
    · split
      · refine ⟨?_, ?_⟩
        · simp only [emitStats, List.all_append, Bool.and_eq_true]
          exact ⟨hI.1, by simp [hI.2 b hb]⟩
        · intro b2 hb2
          simp [emitStats] at hb2
      · exact ⟨hI.1, by intro b2 hb2; simp at hb2⟩
    · exact hI

/-- The final-burst flush preserves the burst invariant. -/
theorem flushFinalBurst_burstInv (s : RunState) (hI : BurstInv s) :
    BurstInv (flushFinalBurst s) := by
  unfold flushFinalBurst
  split
  · exact hI
  · rename_i b hb
    split
    · refine ⟨?_, ?_⟩
      · simp only [emitStats, List.all_append, Bool.and_eq_true]
        exact ⟨hI.1, by simp [hI.2 b hb]⟩
      · intro b2 hb2
        simp only [emitStats] at hb2
        exact hI.2 b2 hb2
    · exact hI

/-- Publishing stats does not touch the burst invariant. -/
theorem emitStats_burstInv (f : ProcessingStats → ProcessingStats) {s : RunState}
    (hI : BurstInv s) : BurstInv (emitStats f s) := by
  unfold emitStats
  exact burstInv_untouched rfl rfl hI

/-- One successful loop step preserves the burst invariant. -/
theorem stepSample_burstInv (sqrtQ : ℚ → ℚ) (inp : SampleInput) (s s1 : RunState)
    (hI : BurstInv s) (h : stepSample sqrtQ inp s = Except.ok s1) : BurstInv s1 := by
  unfold stepSample at h
  split at h
  · simp at h
  · split at h
    · injection h with h2
      subst h2
      refine burstInv_untouched ?_ ?_ hI <;> (split <;> simp)
    · split at h
      · simp at h
      · injection h with h2
        subst h2
        apply burstFinalize_burstInv
        apply smileScan_burstInv
        apply emitStats_burstInv
        refine burstInv_untouched rfl rfl ?_
        split <;> exact burstInv_untouched rfl rfl hI

/-! ## Abort analysis of the loop (claim C7) -/

/-- A step whose seek does not error and whose detector call does not throw
cannot abort the run. -/
theorem stepSample_ok (sqrtQ : ℚ → ℚ) (inp : SampleInput) (s : RunState)
    (hseek : inp.seek ≠ SeekOutcome.seekError) (hdet : exceptOk inp.detect = true) :
    exceptOk (stepSample sqrtQ inp s) = true := by
  unfold stepSample
  split
  · exact absurd (by assumption) hseek
  · dsimp only
    split
    · rfl
    · split
      · rename_i heqd
        rw [heqd] at hdet
        simp [exceptOk] at hdet
      · rfl

/-- A loop over a trace with no seek errors and no detector exceptions
completes. -/
theorem runFrom_ok (sqrtQ : ℚ → ℚ) (d : ℚ) (trace : ℕ → SampleInput) :
    ∀ (n k : ℕ) (s : RunState),
      (∀ i, i < n → (trace (k + i)).seek ≠ SeekOutcome.seekError
        ∧ exceptOk (trace (k + i)).detect = true) →
      exceptOk (runFrom sqrtQ d trace n k s) = true := by
  intro n
  induction n with
  | zero =>
    intro k s _
    simp [runFrom, exceptOk]
  | succ n ih =>
    intro k s hgood
    simp only [runFrom]
    split
    · cases hs : stepSample sqrtQ (trace k) s with
      | error e =>
        have h0 := hgood 0 (Nat.succ_pos n)
        rw [Nat.add_zero] at h0
        have hok := stepSample_ok sqrtQ (trace k) s h0.1 h0.2
        rw [hs] at hok
        simp [exceptOk] at hok
      | ok s2 =>
        exact ih (k + 1) s2 (fun i hi => by
          have hgi := hgood (i + 1) (Nat.succ_lt_succ hi)
          rwa [show k + (i + 1) = k + 1 + i by omega] at hgi)
    · simp [exceptOk]

/-! ## Decomposition of a successful run -/

/-- A successful `processVideo` run is the loop, the final-burst flush, the
closing stats emission and the confidence sort. -/
theorem processVideo_ok_elim {sqrtQ : ℚ → ℚ} {pre : ProcState}
    {opts : ProcessingOptions} {input : RunInput} {fs : List ExtractedFrame}
    {log : List ProcessingStats}
    (h : processVideo sqrtQ pre opts input = Except.ok (fs, log)) :
    ∃ s, runFrom sqrtQ input.duration input.trace (sampleBudget input.duration) 0
        (initialRunState input.duration) = Except.ok s
      ∧ fs = sortFramesDesc (emitStats (fun p => { p with isProcessing := false })
          (flushFinalBurst s)).extractedFrames
      ∧ log = (emitStats (fun p => { p with isProcessing := false })
          (flushFinalBurst s)).statsLog := by
  unfold processVideo at h
  split at h
  · simp at h
  · split at h
    · simp at h
    · split at h
      · simp at h
      · split at h
        · simp at h
        · rename_i s hs
          simp only [Except.ok.injEq, Prod.mk.injEq] at h
          exact ⟨s, hs, h.1.symm, h.2.symm⟩

/-- The burst invariant holds at the freshly reset state. -/
theorem burstInv_initial (d : ℚ) : BurstInv (initialRunState d) := by
  refine ⟨rfl, ?_⟩
  intro b hb
  simp [initialRunState] at hb

/-! ## Concrete run results

The runs above are small enough to evaluate inside the logic; the
equations below record their exact outputs. `Rat` arithmetic is marked
irreducible, so these evaluations unfold at full transparency.
-/

set_option maxRecDepth 16000

/-- A result frame of the smiling landmark set. -/
def frameAt (t c : ℚ) : ExtractedFrame :=
  { expressions := { happy := c }
    landmarks := smilePts
    timestamp := t
    confidence := c
    id := 0 }

/-- A stats record of the 4-second run (16 expected samples). -/
def st16 (pf sm : ℕ) (act : Bool) : ProcessingStats :=
  { totalFrames := 16, processedFrames := pf, smilingFaces := sm, isProcessing := act }

/-- The published stats of the four-burst run. -/
def fourSmileLog : List ProcessingStats :=
  [ st16 0 0 true, st16 1 0 true, st16 2 0 true, st16 3 0 true, st16 4 0 true
  , st16 4 1 true, st16 5 1 true, st16 6 1 true, st16 7 1 true, st16 8 1 true
  , st16 8 2 true, st16 9 2 true, st16 10 2 true, st16 11 2 true, st16 12 2 true
  , st16 12 3 true, st16 13 3 true, st16 14 3 true, st16 15 3 true, st16 16 3 true
  , st16 16 4 true, st16 16 4 false ]

/-- The four-burst run in full: four frames, 0.25 s between the two best
ones, each confidence the raw happy score, sorted descending. -/
theorem fourSmile_run_eq :
    processVideo ratSqrt idleProc optsTwo fourSmileInput =
      Except.ok ([frameAt (3/4) (9/10), frameAt 1 (4/5), frameAt 2 (7/10),
        frameAt 3 (3/5)], fourSmileLog) := by
  with_unfolding_all rfl

/-- The quarter-second empty run, started from a mid-run processor state,
completes normally. -/
theorem small_run_eq :
    processVideo ratSqrt activeProc optsFive smallInput =
      Except.ok ([],
        [ { totalFrames := 1, processedFrames := 0, smilingFaces := 0, isProcessing := true }
        , { totalFrames := 1, processedFrames := 1, smilingFaces := 0, isProcessing := true }
        , { totalFrames := 1, processedFrames := 1, smilingFaces := 0, isProcessing := false } ]) := by
  with_unfolding_all rfl

/-- The run whose first seek times out still completes and still extracts
the later smile. -/
theorem timeout_run_eq :
    processVideo ratSqrt idleProc optsFive timeoutInput =
      Except.ok ([frameAt (1/4) (3/5)],
        [ { totalFrames := 4, processedFrames := 0, smilingFaces := 0, isProcessing := true }
        , { totalFrames := 4, processedFrames := 1, smilingFaces := 0, isProcessing := true }
        , { totalFrames := 4, processedFrames := 2, smilingFaces := 0, isProcessing := true }
        , { totalFrames := 4, processedFrames := 3, smilingFaces := 0, isProcessing := true }
        , { totalFrames := 4, processedFrames := 4, smilingFaces := 0, isProcessing := true }
        , { totalFrames := 4, processedFrames := 4, smilingFaces := 1, isProcessing := true }
        , { totalFrames := 4, processedFrames := 4, smilingFaces := 1, isProcessing := false } ]) := by
  with_unfolding_all rfl

/-- A seek `error` event on the first sample aborts the whole run. -/
theorem seekErr_run_eq :
    processVideo ratSqrt idleProc optsFive seekErrInput
      = Except.error PVError.seekFailed := by
  with_unfolding_all rfl

/-- A detector exception on the first sample aborts the whole run. -/
theorem detectErr_run_eq :
    processVideo ratSqrt idleProc optsFive detectErrInput
      = Except.error PVError.detectionFailed := by
  with_unfolding_all rfl

/-! ## Claim theorems -/

/-- Claim C1, counterexample: the cap invariant fails on the code. With
`extractAll := false` and `maxExtract := 2`, the four-burst run returns
four frames: `processVideo` never reads its options and never truncates
the result list. -/
theorem C1_cap_counterexample :
    ¬ (optsTwo.extractAll = false →
      (framesOf (processVideo ratSqrt idleProc optsTwo fourSmileInput)).length
        ≤ optsTwo.maxExtract) := by
  rw [fourSmile_run_eq]
  decide

/-- Claim C1, amended: the output is never capped. `processVideo` ignores
the options argument entirely — any two options values give identical
results — and the four-burst run with `maxExtract := 2` returns all four
accepted frames. -/
theorem C1_options_ignored_uncapped :
    (∀ (sqrtQ : ℚ → ℚ) (pre : ProcState) (o1 o2 : ProcessingOptions)
      (input : RunInput),
      processVideo sqrtQ pre o1 input = processVideo sqrtQ pre o2 input)
    ∧ (framesOf (processVideo ratSqrt idleProc optsTwo fourSmileInput)).length = 4 := by
  refine ⟨fun _ _ _ _ _ => rfl, ?_⟩
  rw [fourSmile_run_eq]
  rfl

/-- Claim C2: every run's returned collection is sorted by confidence
descending — for each adjacent pair, the later confidence is at most the
earlier one. The final `sort((a, b) => b.confidence - a.confidence)`
guarantees it on every successful run, and an aborted run returns
nothing. -/
theorem C2_output_sorted_by_confidence (sqrtQ : ℚ → ℚ) (pre : ProcState)
    (opts : ProcessingOptions) (input : RunInput) :
    (framesOf (processVideo sqrtQ pre opts input)).Pairwise
      (fun a b => b.confidence ≤ a.confidence) := by
  unfold framesOf
  cases hpv : processVideo sqrtQ pre opts input with
  | error e => exact List.Pairwise.nil
  | ok p =>
    obtain ⟨fs, log⟩ := p
    obtain ⟨s, _, hfs, _⟩ := processVideo_ok_elim hpv
    dsimp only
    rw [hfs]
    exact pairwise_sortFramesDesc _

/-- Claim C3, counterexample: with every landmark at the origin both
reference denominators (mouth width, inter-eye distance) are zero, yet the
geometric scorer returns confidence 1/4, not 0: the eye-crinkle band
(whose normalisation divides by the constant 50) still fires while the
`NaN`-valued ratio features merely contribute nothing. -/
theorem C3_degenerate_zero_counterexample :
    |((zeroPts 54).x - (zeroPts 48).x)| = 0
      ∧ calculateDistance ratSqrt (zeroPts 36) (zeroPts 45) = 0
      ∧ (analyzeSmileGeometry ratSqrt zeroPts).confidence ≠ 0 := by
  with_unfolding_all exact of_decide_eq_true rfl

/-- Claim C3, amended: on degenerate geometry the scorer does not fail —
for every square-root model and every landmark set the returned confidence
is a number in `[0, 1]` (divisions by zero yield `NaN`/`Infinity`, whose
comparisons are false, and the score is a clamped sum of band constants) —
but it is not 0: the all-coincident landmark set scores exactly 1/4. -/
theorem C3_degenerate_geometry_amended :
    (∀ (sqrtQ : ℚ → ℚ) (landmarks : Landmarks),
      0 ≤ (analyzeSmileGeometry sqrtQ landmarks).confidence
        ∧ (analyzeSmileGeometry sqrtQ landmarks).confidence ≤ 1)
    ∧ (analyzeSmileGeometry ratSqrt zeroPts).confidence = 1/4 := by
  refine ⟨analyzeSmileGeometry_confidence_bounds, ?_⟩
  with_unfolding_all rfl

/-- Claim C4: for every happy probability in `[0, 1]` and every geometric
analysis whose confidence is in `[0, 1]`, the combiner's confidence lies
in `[0, 1]`. -/
theorem C4_combined_confidence_unit_interval (happyScore : ℚ)
    (g : GeometricAnalysis) (h0 : 0 ≤ happyScore) (h1 : happyScore ≤ 1)
    (g0 : 0 ≤ g.confidence) (g1 : g.confidence ≤ 1) :
    0 ≤ (calculateCombinedConfidence happyScore g).confidence ∧
      (calculateCombinedConfidence happyScore g).confidence ≤ 1 :=
  calculateCombinedConfidence_bounds happyScore g h0 h1 g0 g1

/-- A neutral geometric analysis used as a concrete combiner input. -/
def halfGeo : GeometricAnalysis :=
  { confidence := 1/2
    features :=
      { mouthWidthRatio := JSN.fin 0
        mouthCurvature := JSN.fin 0
        avgEyeCrinkle := JSN.fin 0
        mouthOpennessRatio := JSN.fin 0
        symmetryScore := JSN.fin 0 } }

/-- Witness for claim C4 at happy probability 1/2 and geometric
confidence 1/2. -/
theorem C4_witness :
    0 ≤ (calculateCombinedConfidence (1/2) halfGeo).confidence ∧
      (calculateCombinedConfidence (1/2) halfGeo).confidence ≤ 1 :=
  C4_combined_confidence_unit_interval (1/2) halfGeo (by norm_num) (by norm_num)
    (by norm_num [halfGeo]) (by norm_num [halfGeo])

/-- A geometric analysis with zero confidence but moderate eye crinkle. -/
def lopsidedGeo : GeometricAnalysis :=
  { confidence := 0
    features :=
      { mouthWidthRatio := JSN.fin 0
        mouthCurvature := JSN.fin 0
        avgEyeCrinkle := JSN.fin (9/20)
        mouthOpennessRatio := JSN.fin 0
        symmetryScore := JSN.fin 0 } }

/-- Claim C5, counterexample: the verdict is true with happy score 0.8 and
eye crinkle 0.45 although the geometric confidence is 0 (below any
positive floor, and in particular below the code's 0.3 gate) and the final
confidence 0.32 is below the 0.5 gate: the happy-with-crinkle branch alone
suffices, so the triple gate is not necessary. -/
theorem C5_triple_gate_counterexample :
    (calculateCombinedConfidence (4/5) lopsidedGeo).isGenuine = true
      ∧ lopsidedGeo.confidence = 0
      ∧ ¬ (3/10 < lopsidedGeo.confidence)
      ∧ ¬ (1/2 < (calculateCombinedConfidence (4/5) lopsidedGeo).confidence) := by
  with_unfolding_all exact of_decide_eq_true rfl

/-- The amended genuineness condition, written from the source's
disjunction: the baseline triple gate, OR a strong happy score with eye
crinkle, OR a wide open mouth with a moderate happy score. -/
def genuineVerdictSpec (happyScore : ℚ) (g : GeometricAnalysis) : Prop :=
  (1/2 < (calculateCombinedConfidence happyScore g).confidence
      ∧ 3/10 < g.confidence ∧ 1/5 < happyScore)
    ∨ (7/10 < happyScore ∧ g.features.avgEyeCrinkle.gtb (JSN.fin (2/5)) = true)
    ∨ (g.features.mouthWidthRatio.gtb (JSN.fin (2/5)) = true
      ∧ g.features.mouthOpennessRatio.gtb (JSN.fin (1/2)) = true
      ∧ 3/10 < happyScore)

/-- Claim C5, amended: the genuineness verdict is exactly the disjunction
`genuineVerdictSpec` — the triple gate is only its first branch, and two
alternative dominant-signal branches can pass without it. -/
theorem C5_genuine_iff_disjunction (happyScore : ℚ) (g : GeometricAnalysis) :
    (calculateCombinedConfidence happyScore g).isGenuine = true
      ↔ genuineVerdictSpec happyScore g := by
  simp only [calculateCombinedConfidence, genuineVerdictSpec, Bool.or_eq_true,
    Bool.and_eq_true, decide_eq_true_eq]
  tauto

/-- Claim C6, counterexample: a `processVideo` call entered while the
processor state still carries an active run (buffered burst, live
cooldown) is not rejected: it returns no error at all, completing
normally. -/
theorem C6_concurrent_call_not_rejected :
    ¬ ∃ e : PVError,
      processVideo ratSqrt activeProc optsFive smallInput = Except.error e := by
  intro hex
  obtain ⟨e, he⟩ := hex
  rw [small_run_eq] at he
  exact Except.noConfusion he

/-- Claim C6, amended: there is no concurrent-run guard. `processVideo`
never reads the instance state it receives (the source overwrites the
stop flag, burst and cooldown before any read), so a call from a mid-run
state behaves exactly like a call from an idle one and completes
normally; no concurrent-run error kind exists among its failure modes. -/
theorem C6_no_concurrency_guard :
    (∀ (sqrtQ : ℚ → ℚ) (pre1 pre2 : ProcState) (opts : ProcessingOptions)
      (input : RunInput),
      processVideo sqrtQ pre1 opts input = processVideo sqrtQ pre2 opts input)
    ∧ exceptOk (processVideo ratSqrt activeProc optsFive smallInput) = true := by
  refine ⟨fun _ _ _ _ _ => rfl, ?_⟩
  rw [small_run_eq]
  rfl

/-- Claim C7, counterexample: sample-level errors are not all isolated. A
seek `error` event rejects the per-sample promise and aborts the whole
run, and a detector exception propagates and aborts the whole run. -/
theorem C7_sample_errors_abort_run :
    processVideo ratSqrt idleProc optsFive seekErrInput
        = Except.error PVError.seekFailed
      ∧ processVideo ratSqrt idleProc optsFive detectErrInput
        = Except.error PVError.detectionFailed :=
  ⟨seekErr_run_eq, detectErr_run_eq⟩

/-- Claim C7, amended: only seek timeouts are soft. If no sample's seek
fires the `error` event and no detector call throws, the run always
completes — timeouts (and empty detection results) never abort it. -/
theorem C7_only_timeouts_are_soft (sqrtQ : ℚ → ℚ) (pre : ProcState)
    (opts : ProcessingOptions) (input : RunInput)
    (he : input.elementsPresent = true) (hl : input.loadOk = true)
    (hcx : input.contextOk = true)
    (hgood : ∀ i, i < sampleBudget input.duration →
      (input.trace i).seek ≠ SeekOutcome.seekError
        ∧ exceptOk (input.trace i).detect = true) :
    exceptOk (processVideo sqrtQ pre opts input) = true := by
  unfold processVideo
  rw [he, hl, hcx]
  cases hr : runFrom sqrtQ input.duration input.trace (sampleBudget input.duration) 0
      (initialRunState input.duration) with
  | error e =>
    have hok := runFrom_ok sqrtQ input.duration input.trace
      (sampleBudget input.duration) 0 (initialRunState input.duration)
      (fun i hi => by simpa using hgood i hi)
    rw [hr] at hok
    simp [exceptOk] at hok
  | ok s => simp [exceptOk]

/-- Witness for claim C7: a run whose first seek times out satisfies the
hypotheses and completes. -/
theorem C7_witness :
    (∀ i, i < sampleBudget timeoutInput.duration →
      (timeoutInput.trace i).seek ≠ SeekOutcome.seekError
        ∧ exceptOk (timeoutInput.trace i).detect = true)
      ∧ exceptOk (processVideo ratSqrt idleProc optsFive timeoutInput) = true := by
  have hgood : ∀ i, i < sampleBudget timeoutInput.duration →
      (timeoutInput.trace i).seek ≠ SeekOutcome.seekError
        ∧ exceptOk (timeoutInput.trace i).detect = true := by
    with_unfolding_all exact of_decide_eq_true rfl
  exact ⟨hgood,
    C7_only_timeouts_are_soft ratSqrt idleProc optsFive timeoutInput rfl rfl rfl hgood⟩

/-- Claim C8, counterexample: the diversity invariant fails. In the
four-burst run the two best frames are 0.25 s apart — far below the 1.5 s
minimum gap — and both appear in the output (the code has no cluster
structure that could collapse them). -/
theorem C8_diversity_gap_counterexample :
    ¬ (framesOf (processVideo ratSqrt idleProc optsTwo fourSmileInput)).Pairwise
      (fun a b => 3/2 ≤ |a.timestamp - b.timestamp|) := by
  rw [fourSmile_run_eq]
  intro hp
  have h01 := (List.pairwise_cons.mp hp).1 (frameAt 1 (4/5))
    (List.mem_cons_self _ _)
  norm_num [frameAt] at h01
  rw [abs_of_nonneg (by norm_num)] at h01
  norm_num at h01

/-- Claim C8, amended: no minimum time gap is enforced between accepted
frames. The four-burst run returns frames at 0.75 s and 1.0 s — 0.25 s
apart, both distinct entries of the output — because the only separation
mechanisms are burst finalisation and a wall-clock cooldown whose timer
can fire between two adjacent samples. -/
theorem C8_no_minimum_gap :
    (framesOf (processVideo ratSqrt idleProc optsTwo fourSmileInput)).map
        (fun f => f.timestamp) = [3/4, 1, 2, 3]
      ∧ |(3/4 : ℚ) - 1| = 1/4 ∧ ¬ ((3/2 : ℚ) ≤ 1/4) := by
  refine ⟨?_, by norm_num, by norm_num⟩
  rw [fourSmile_run_eq]
  rfl

/-- Claim C9, counterexample: the stored confidence is not the hybrid
combined confidence. The best frame of the four-burst run stores 9/10 —
its raw happy probability — while the combined score of its own happy
probability and landmark geometry is 1. -/
theorem C9_not_combined_confidence :
    ((framesOf (processVideo ratSqrt idleProc optsTwo fourSmileInput)).map
        (fun f => (f.confidence,
          (calculateCombinedConfidence f.expressions.happy
            (analyzeSmileGeometry ratSqrt f.landmarks)).confidence))).head?
        = some (9/10, 1)
      ∧ (9/10 : ℚ) ≠ 1 := by
  constructor
  · rw [fourSmile_run_eq]
    with_unfolding_all rfl
  · norm_num

/-- Claim C9, amended: every frame returned by `processVideo` stores, as
its confidence, exactly the raw learned happy probability of the detection
it came from (`expressions.happy || 0`), not the hybrid combined score. -/
theorem C9_confidence_is_raw_happy (sqrtQ : ℚ → ℚ) (pre : ProcState)
    (opts : ProcessingOptions) (input : RunInput) :
    (framesOf (processVideo sqrtQ pre opts input)).all confEqHappy = true := by
  unfold framesOf
  cases hpv : processVideo sqrtQ pre opts input with
  | error e => rfl
  | ok p =>
    obtain ⟨fs, log⟩ := p
    obtain ⟨s, hs, hfs, _⟩ := processVideo_ok_elim hpv
    dsimp only
    rw [hfs]
    apply all_sortFramesDesc
    have hInv : BurstInv s := runFrom_inv sqrtQ input.duration input.trace BurstInv
      (stepSample_burstInv sqrtQ) (sampleBudget input.duration) 0 _ _
      (burstInv_initial input.duration) hs
    exact (emitStats_burstInv (fun p => { p with isProcessing := false })
      (flushFinalBurst_burstInv s hInv)).1

/-- Claim C10: within one completed run the published stats are monotone —
`processedFrames` advances by at most one at a time and never decreases,
`smilingFaces` never decreases, `totalFrames` never changes — the log
starts at the zeroed active record and its final entry has
`isProcessing = false`. -/
theorem C10_stats_monotone (sqrtQ : ℚ → ℚ) (pre : ProcState)
    (opts : ProcessingOptions) (input : RunInput)
    (h : exceptOk (processVideo sqrtQ pre opts input) = true) :
    List.Chain' statsStep (logOf (processVideo sqrtQ pre opts input))
      ∧ (∃ h0 t0, logOf (processVideo sqrtQ pre opts input) = h0 :: t0
          ∧ h0.processedFrames = 0 ∧ h0.isProcessing = true)
      ∧ ∃ lastS, (logOf (processVideo sqrtQ pre opts input)).getLast? = some lastS
          ∧ lastS.isProcessing = false := by
  cases hpv : processVideo sqrtQ pre opts input with
  | error e => rw [hpv] at h; simp [exceptOk] at h
  | ok p =>
    obtain ⟨fs, log⟩ := p
    obtain ⟨s, hs, _, hlog⟩ := processVideo_ok_elim hpv
    have hInv : StatsInv s := runFrom_inv sqrtQ input.duration input.trace StatsInv
      (stepSample_statsInv sqrtQ) (sampleBudget input.duration) 0 _ _
      (statsInv_initial input.duration) hs
    have hflush := flushFinalBurst_statsInv _ hInv
    obtain ⟨⟨hh, hl, hc, _, _⟩, hfin⟩ := statsInv_final_emit hflush
    simp only [logOf]
    rw [hlog]
    exact ⟨hc, hh, _, hl, hfin⟩

/-- Witness for claim C10: the four-burst run completes and its log
satisfies the monotonicity properties. -/
theorem C10_witness :
    exceptOk (processVideo ratSqrt idleProc optsTwo fourSmileInput) = true
      ∧ (List.Chain' statsStep (logOf (processVideo ratSqrt idleProc optsTwo fourSmileInput))
        ∧ (∃ h0 t0, logOf (processVideo ratSqrt idleProc optsTwo fourSmileInput) = h0 :: t0
            ∧ h0.processedFrames = 0 ∧ h0.isProcessing = true)
        ∧ ∃ lastS, (logOf (processVideo ratSqrt idleProc optsTwo fourSmileInput)).getLast?
            = some lastS ∧ lastS.isProcessing = false) := by
  have hok : exceptOk (processVideo ratSqrt idleProc optsTwo fourSmileInput) = true := by
    rw [fourSmile_run_eq]
    rfl
  exact ⟨hok, C10_stats_monotone ratSqrt idleProc optsTwo fourSmileInput hok⟩
